import Mathlib

/-!
Shallow embedding of the QFAB ansible package-manager engines
(src/linuxbrew.py and src/conda.py).

The Python code is stateful (mutating `self` fields) and uses exceptions
(`LinuxbrewException` / `CondaException`) for early-exit control flow; the
`run()` entry points catch the exception and read the mutated fields.  We
model this with an explicit state-passing monad `PyM σ` whose results are
either a normal return carrying the new state or an exception carrying the
state at the point of the raise.  External process invocations
(`module.run_command`) are modelled by an oracle: a function from the
number of commands issued so far and the argument vector to an
(exit-code, stdout, stderr) triple; every issued command is also recorded
in a trace inside the state, so that theorems can speak about which
external commands a run performs.
-/

/-- Result of one external command: exit code, stdout, stderr
(the `rc, out, err` triple of `module.run_command`). -/
structure CmdOut where
  rc : Int
  out : String
  err : String
deriving DecidableEq, Repr

/-- Outcome of a Python statement block: normal return with the mutated
state, or a raised exception with the state at the raise. -/
inductive PyResult (σ : Type) (α : Type) where
  | ok (a : α) (s : σ)
  | exn (s : σ)
deriving Repr, DecidableEq

/-- State-passing computation with Python-style exceptions. -/
def PyM (σ : Type) (α : Type) := σ → PyResult σ α

def PyM.pure {σ α : Type} (a : α) : PyM σ α := fun s => .ok a s

def PyM.bind {σ α β : Type} (m : PyM σ α) (f : α → PyM σ β) : PyM σ β :=
  fun s =>
    match m s with
    | .ok a s' => f a s'
    | .exn s' => .exn s'

instance : Monad (PyM σ) where
  pure := PyM.pure
  bind := PyM.bind

/-- Read the current state (`self`). -/
def PyM.get {σ : Type} : PyM σ σ := fun s => .ok s s

/-- Overwrite the state (a batch of assignments to `self` fields). -/
def PyM.set {σ : Type} (s : σ) : PyM σ Unit := fun _ => .ok () s

/-- `raise` of the module's exception class. -/
def PyM.raise {σ α : Type} : PyM σ α := fun s => .exn s

/-- The final state of a computation, whether it returned or raised. -/
def PyM.outState {σ α : Type} : PyResult σ α → σ
  | .ok _ s => s
  | .exn s => s

/-- Whether a computation ended in a raised exception. -/
def PyM.isExn {σ α : Type} : PyResult σ α → Bool
  | .ok _ _ => false
  | .exn _ => true

/-- Substring test: Python's `re.search` on a pattern with no regex
metacharacters is a plain substring search. -/
def strContains (hay pat : String) : Bool := decide (pat.data <:+: hay.data)

/-- Python 2 `\w` on a `str` without `re.UNICODE`: `[a-zA-Z0-9_]`. -/
def pyWordChar (c : Char) : Bool :=
  (decide ('a' ≤ c) && decide (c ≤ 'z')) ||
  (decide ('A' ≤ c) && decide (c ≤ 'Z')) ||
  (decide ('0' ≤ c) && decide (c ≤ '9')) ||
  (c == '_')

/-- Characters admitted by conda's `VALID_PACKAGE_CHARS` class
(`\w`, `.`, `=`, `-`). -/
def condaPackageChar (c : Char) : Bool :=
  pyWordChar c || c == '.' || c == '=' || c == '-'

/-- Characters admitted by linuxbrew's `VALID_PACKAGE_CHARS` class
(`\w`, `.`, `/`, `+`, `-`, `:`). -/
def brewPackageChar (c : Char) : Bool :=
  pyWordChar c || c == '.' || c == '/' || c == '+' || c == '-' || c == ':'

/-- `INVALID_*_REGEX.search(s)`: `_create_regex_group` builds the negated
character class `[^...]`, so `search` succeeds iff some character of `s`
is outside the allowed class. -/
def regexSearchOutside (allowed : Char → Bool) (s : String) : Bool :=
  s.data.any (fun c => !allowed c)

/-- Python truthiness of an optional string (`None` and `''` are falsy). -/
def pyTruthy : Option String → Bool
  | none => false
  | some s => !s.isEmpty

/-- Python `'{0}'.format(x)` / command-line rendering of a possibly-`None`
string field (`None` renders as `'None'`). -/
def pyStrOpt : Option String → String
  | none => "None"
  | some s => s

/-- Split a character list at every separator hit (Python
`str.split(sep)` semantics: empty pieces are kept). -/
def splitCharAux (p : Char → Bool) : List Char → List Char → List (List Char)
  | [], acc => [acc.reverse]
  | c :: cs, acc =>
      if p c then acc.reverse :: splitCharAux p cs []
      else splitCharAux p cs (c :: acc)

/-- Python `s.split(sep)` for a one-character separator. -/
def pySplitChar (sep : Char) (s : String) : List String :=
  (splitCharAux (fun c => c == sep) s.data []).map List.asString

/-- The whitespace characters of Python's `str.strip` / `str.split()`. -/
def pyWhitespaceChar (c : Char) : Bool :=
  c == ' ' || c == '\t' || c == '\n' || c == '\r'

/-- Python `s.strip()`. -/
def pyStrip (s : String) : String :=
  ((s.data.dropWhile pyWhitespaceChar).reverse.dropWhile pyWhitespaceChar).reverse.asString

/-- ASCII lower-casing of one character (Python `str.lower` on the ASCII
command output the engines consume). -/
def pyLowerChar (c : Char) : Char :=
  if 'A' ≤ c && c ≤ 'Z' then Char.ofNat (c.toNat + 32) else c

/-- Python `s.lower()`. -/
def pyLower (s : String) : String := (s.data.map pyLowerChar).asString

/-- Python `s.split()` (split on whitespace runs, dropping empties). -/
def pySplitWs (s : String) : List String :=
  ((splitCharAux pyWhitespaceChar s.data []).map List.asString).filter
    (fun l => !l.isEmpty)

/-- Decimal digit accumulation for `parseNat`. -/
def digitsToNat : List Char → Nat → Nat
  | [], acc => acc
  | c :: cs, acc => digitsToNat cs (acc * 10 + (c.toNat - '0'.toNat))

/-- Numeral reading (`int(s)` on an all-digit string). -/
def parseNat (s : String) : Nat := digitsToNat s.data 0

/-- Python runtime errors relevant to the embedded fragments. -/
inductive PyErr where
  | indexError
  | valueError
  | moduleException
deriving DecidableEq, Repr

/-! ## Linuxbrew engine (src/linuxbrew.py) -/

namespace Linuxbrew

/-- `Linuxbrew.valid_package`: `None` is valid; a string is valid iff the
negated character-class regex finds no character outside
`VALID_PACKAGE_CHARS`. -/
def valid_package : Option String → Bool
  | none => true
  | some package => !(regexSearchOutside brewPackageChar package)

/-- Instance state of a `Linuxbrew` object: the status vars set by
`_setup_status_vars`, the request fields set by `_setup_instance_vars`,
`module.check_mode`, and the bookkeeping for the external-command oracle
(`clock` = number of commands issued so far, `trace` = commands issued). -/
structure St where
  failed : Bool
  changed : Bool
  changed_count : Nat
  unchanged_count : Nat
  message : String
  brew_path : String
  packages : List String
  current_package : Option String
  state : String
  update_linuxbrew : Bool
  upgrade_all : Bool
  install_options : List String
  check_mode : Bool
  clock : Nat
  trace : List (List String)
deriving Repr, DecidableEq

/-- Oracle for `module.run_command`: answer as a function of how many
commands have been issued so far (so the external world may evolve
between queries) and of the argument vector. -/
def Oracle := Nat → List String → CmdOut

/-- `self.module.run_command(cmd)`: consult the oracle, advance the clock
and record the command in the trace. -/
def run_command (env : Oracle) (cmd : List String) : PyM St CmdOut :=
  fun s => .ok (env s.clock cmd)
    { s with clock := s.clock + 1, trace := s.trace ++ [cmd] }

/-- The ubiquitous failure pattern
`self.failed = True; self.message = msg; raise LinuxbrewException(msg)`. -/
def fail (msg : String) : PyM St α :=
  fun s => .exn { s with failed := true, message := msg }

/-- The marker scan of `_current_package_is_installed`: a line counts iff
`re.search(r'Built from source', line)` or
`re.search(r'Poured from bottle', line)` succeeds. -/
def installedMarker (line : String) : Bool :=
  strContains line "Built from source" || strContains line "Poured from bottle"

/-- The installed-answer extracted from a `brew info` result: scan the
lines of stdout for a marker (the exit code is ignored by the source). -/
def installedAnswer (r : CmdOut) : Bool :=
  (pySplitChar '\n' r.out).any installedMarker

/-- The argument vector of the package-info query. -/
def infoCmd (brew_path pkg : String) : List String := [brew_path, "info", pkg]

/-- `Linuxbrew._current_package_is_installed`. -/
def _current_package_is_installed (env : Oracle) : PyM St Bool := do
  let s ← PyM.get
  if !(valid_package s.current_package) then
    fail ("Invalid package: " ++ pyStrOpt s.current_package ++ ".")
  else do
    let r ← run_command env (infoCmd s.brew_path (pyStrOpt s.current_package))
    pure (installedAnswer r)

/-- The property setter `current_package.setter`: validate, then assign
(`self._current_package = None` and raise on a bad value). -/
def setCurrentPackage (p : String) : PyM St Unit := do
  let s ← PyM.get
  if !(valid_package (some p)) then do
    PyM.set { s with current_package := none }
    fail ("Invalid package: " ++ p ++ ".")
  else
    PyM.set { s with current_package := some p }

/-- The mutating command vector built by `_install_current_package`:
`[brew_path, 'install'] + install_options + [current_package, head]`,
then `[opt for opt in opts if opt]` drops `None` and empty strings. -/
def installCmd (brew_path : String) (install_options : List String)
    (pkg : Option String) (state : String) : List String :=
  (([some brew_path, some "install"] ++ install_options.map some
      ++ [some (pyStrOpt pkg),
          if state == "head" then some "--HEAD" else none]).filterMap id).filter
    (fun o => !o.isEmpty)

/-- `Linuxbrew._install_current_package`. -/
def _install_current_package (env : Oracle) : PyM St Bool := do
  let s ← PyM.get
  if !(valid_package s.current_package) then
    fail ("Invalid package: " ++ pyStrOpt s.current_package ++ ".")
  else do
  let installed ← _current_package_is_installed env
  if installed then do
    let s ← PyM.get
    PyM.set { s with unchanged_count := s.unchanged_count + 1,
                     message := "Package already installed: "
                       ++ pyStrOpt s.current_package }
    pure true
  else do
  let s ← PyM.get
  if s.check_mode then do
    PyM.set { s with changed := true,
                     message := "Package would be installed: "
                       ++ pyStrOpt s.current_package }
    PyM.raise
  else do
  let s ← PyM.get
  let r ← run_command env
    (installCmd s.brew_path s.install_options s.current_package s.state)
  let installed2 ← _current_package_is_installed env
  if installed2 then do
    let s ← PyM.get
    PyM.set { s with changed_count := s.changed_count + 1, changed := true,
                     message := "Package installed: "
                       ++ pyStrOpt s.current_package }
    pure true
  else
    fail (pyStrip r.err)

/-- The per-package loop of `_install_packages`:
`self.current_package = package; self._install_current_package()`. -/
def installLoop (env : Oracle) : List String → PyM St Unit
  | [] => PyM.pure ()
  | p :: rest => do
      setCurrentPackage p
      let _ ← _install_current_package env
      installLoop env rest

/-- `Linuxbrew._install_packages`. -/
def _install_packages (env : Oracle) : PyM St Bool := do
  let s ← PyM.get
  installLoop env s.packages
  pure true

/-- The mutating command vector built by `_uninstall_current_package`. -/
def uninstallCmd (brew_path : String) (install_options : List String)
    (pkg : Option String) : List String :=
  (([some brew_path, some "uninstall"] ++ install_options.map some
      ++ [some (pyStrOpt pkg)]).filterMap id).filter
    (fun o => !o.isEmpty)

/-- `Linuxbrew._uninstall_current_package`. -/
def _uninstall_current_package (env : Oracle) : PyM St Bool := do
  let s ← PyM.get
  if !(valid_package s.current_package) then
    fail ("Invalid package: " ++ pyStrOpt s.current_package ++ ".")
  else do
  let installed ← _current_package_is_installed env
  if !installed then do
    let s ← PyM.get
    PyM.set { s with unchanged_count := s.unchanged_count + 1,
                     message := "Package already uninstalled: "
                       ++ pyStrOpt s.current_package }
    pure true
  else do
  let s ← PyM.get
  if s.check_mode then do
    PyM.set { s with changed := true,
                     message := "Package would be uninstalled: "
                       ++ pyStrOpt s.current_package }
    PyM.raise
  else do
  let s ← PyM.get
  let r ← run_command env
    (uninstallCmd s.brew_path s.install_options s.current_package)
  let installed2 ← _current_package_is_installed env
  if !installed2 then do
    let s ← PyM.get
    PyM.set { s with changed_count := s.changed_count + 1, changed := true,
                     message := "Package uninstalled: "
                       ++ pyStrOpt s.current_package }
    pure true
  else
    fail (pyStrip r.err)

/-- The per-package loop of `_uninstall_packages`. -/
def uninstallLoop (env : Oracle) : List String → PyM St Unit
  | [] => PyM.pure ()
  | p :: rest => do
      setCurrentPackage p
      let _ ← _uninstall_current_package env
      uninstallLoop env rest

/-- `Linuxbrew._uninstall_packages`. -/
def _uninstall_packages (env : Oracle) : PyM St Bool := do
  let s ← PyM.get
  uninstallLoop env s.packages
  pure true

/-- `Linuxbrew._update_linuxbrew` (runs `brew update`; note: no
check-mode guard in the source). -/
def _update_linuxbrew (env : Oracle) : PyM St Bool := do
  let s ← PyM.get
  let r ← run_command env [s.brew_path, "update"]
  if r.rc == 0 then do
    if !r.out.isEmpty then do
      let already :=
        ((pySplitChar '\n' r.out).filter (fun l => !l.isEmpty)).any
          (fun l => strContains (pyLower (pyStrip l)) "already up-to-date.")
      let s ← PyM.get
      if !already then
        PyM.set { s with changed := true,
                         message := "Linuxbrew updated successfully." }
      else
        PyM.set { s with message := "Linuxbrew already up-to-date." }
    pure true
  else
    fail (pyStrip r.err)

/-- `Linuxbrew._upgrade_all` (runs `brew upgrade`; note: no check-mode
guard in the source). -/
def _upgrade_all (env : Oracle) : PyM St Bool := do
  let s ← PyM.get
  let r ← run_command env [s.brew_path, "upgrade"]
  if r.rc == 0 then do
    let s ← PyM.get
    if r.out.isEmpty then
      PyM.set { s with message := "Linuxbrew packages already upgraded." }
    else
      PyM.set { s with changed := true, message := "Linuxbrew upgraded." }
    pure true
  else
    fail (pyStrip r.err)

/-- `Linuxbrew._run`: optional self-update and upgrade-all, then the
dispatch on `self.state` (only the dispatch arms exercised by the claims
under verification — `installed` and `absent` — plus the default fall
through are modelled; `upgraded`, `head`, `linked`, `unlinked` follow the
same per-package pattern). -/
def _run (env : Oracle) : PyM St Unit := do
  let s ← PyM.get
  if s.update_linuxbrew then do
    let _ ← _update_linuxbrew env
    pure ()
  let s ← PyM.get
  if s.upgrade_all then do
    let _ ← _upgrade_all env
    pure ()
  let s ← PyM.get
  if !s.packages.isEmpty then
    if s.state == "installed" then do
      let _ ← _install_packages env
      pure ()
    else if s.state == "absent" then do
      let _ ← _uninstall_packages env
      pure ()
    else
      pure ()
  else
    pure ()

/-- The state after `try: self._run() except LinuxbrewException: pass`. -/
def runCaught (env : Oracle) (s0 : St) : St := PyM.outState (_run env s0)

/-- The state after the tail of `Linuxbrew.run`: the batch-summary
overwrite of the message. -/
def finalState (env : Oracle) (s0 : St) : St :=
  let s := runCaught env s0
  if !s.failed && s.changed_count + s.unchanged_count > 1 then
    { s with message := "Changed: " ++ toString s.changed_count
        ++ ", Unchanged: " ++ toString s.unchanged_count }
  else s

/-- `Linuxbrew.run`: catch the early-exit exception, finalize the message
and return `self._status()`. -/
def run (env : Oracle) (s0 : St) : Bool × Bool × String :=
  let s := finalState env s0
  (s.failed, s.changed, s.message)

/-- The state built by `__init__` via `_setup_status_vars` and
`_setup_instance_vars` (the `_prep` executable lookup is the excluded
Executable Locator; its result is the given `brew_path`). -/
def initSt (brew_path : String) (packages : List String) (state : String)
    (update_linuxbrew upgrade_all : Bool) (install_options : List String)
    (check_mode : Bool) : St :=
  { failed := false, changed := false, changed_count := 0,
    unchanged_count := 0, message := "", brew_path := brew_path,
    packages := packages, current_package := none, state := state,
    update_linuxbrew := update_linuxbrew, upgrade_all := upgrade_all,
    install_options := install_options, check_mode := check_mode,
    clock := 0, trace := [] }

/-- Classification of an argument vector as a mutating external command:
the subcommand (second token) is one of linuxbrew's state-changing
subcommands, as opposed to the read-only `info` and `outdated` queries. -/
def isMutatingCmd : List String → Bool
  | _ :: sub :: _ =>
      ["install", "uninstall", "upgrade", "link", "unlink", "update"].contains sub
  | _ => false

end Linuxbrew

/-! ## Conda engine (src/conda.py) -/

namespace Conda

/-- `Conda.valid_package`: a string is valid iff the negated
character-class regex finds no character outside `VALID_PACKAGE_CHARS`
(conda's class has no `None` short-circuit: `None` is not a `basestring`
and is therefore invalid). -/
def valid_package (package : String) : Bool :=
  !(regexSearchOutside condaPackageChar package)

/-- `Conda.valid_environment`. -/
def valid_environment (name : String) : Bool :=
  !(regexSearchOutside (fun c => pyWordChar c || c == '.' || c == '-') name)

/-- `CONDA_MAJOR_VERSION`. -/
def CONDA_MAJOR_VERSION : Nat := 4
/-- `CONDA_MINOR_VERSION`. -/
def CONDA_MINOR_VERSION : Nat := 0
/-- `CONDA_TERT_VERSION`. -/
def CONDA_TERT_VERSION : Nat := 11

/-- Python 2 `<` between a `str` and an `int`: objects of different types
compare by type name, and `'int' < 'str'`, so a `str` is never less than
an `int`. -/
def py2_str_lt_int (_s : String) (_n : Nat) : Bool := false

/-- Python 2 `==` between a `str` and an `int`: distinct types are never
equal. -/
def py2_str_eq_int (_s : String) (_n : Nat) : Bool := false

/-- Python list indexing: `l[i]` raises `IndexError` beyond the end. -/
def pyGet (l : List String) (i : Nat) : Except PyErr String :=
  match l.get? i with
  | some x => Except.ok x
  | none => Except.error PyErr.indexError

/-- The `update_only` computation of `Conda._prep_conda_path`
(src/conda.py lines 263-276) as a function of the dotted version string
(token 3 of `conda info` output): `conda_version = token.split('.')`,
then compare `conda_version[1]`, `conda_version[2]`, `conda_version[3]`
against the minimum `(4, 0, 11)` with Python 2 mixed-type comparisons.
The source's `&&` on line 274 — a Python syntax error — is read
charitably as `and`; Python truthiness of the string is its
nonemptiness. -/
def update_only_of_version (vstr : String) : Except PyErr Bool :=
  let conda_version := pySplitChar '.' vstr
  match pyGet conda_version 1 with
  | .error e => .error e
  | .ok v1 =>
    if py2_str_lt_int v1 CONDA_MAJOR_VERSION then
      .ok true
    else if py2_str_eq_int v1 CONDA_MAJOR_VERSION then
      match pyGet conda_version 2 with
      | .error e => .error e
      | .ok v2 =>
        if py2_str_lt_int v2 CONDA_MINOR_VERSION then
          .ok true
        else if py2_str_eq_int v2 CONDA_MINOR_VERSION then
          match pyGet conda_version 3 with
          | .error e => .error e
          | .ok v3 =>
            if !v3.isEmpty && py2_str_lt_int v3 CONDA_TERT_VERSION then
              .ok true
            else
              .ok false
        else
          .ok false
    else
      .ok false

/-- What the spec's words describe for the version gate: parse the dotted
version as numbers and flag update-only iff, at the first point of
difference, a compared component is strictly below the minimum
`(4, 0, 11)`; a missing patch component is tolerated.  (Refinement
reference for the gate claim; translated from the spec, not the code.) -/
def update_only_spec (vstr : String) : Bool :=
  let parts := (pySplitChar '.' vstr).map parseNat
  match parts with
  | major :: rest =>
      if major < CONDA_MAJOR_VERSION then true
      else if major == CONDA_MAJOR_VERSION then
        match rest with
        | minor :: rest2 =>
            if minor < CONDA_MINOR_VERSION then true
            else if minor == CONDA_MINOR_VERSION then
              match rest2 with
              | patch :: _ => patch < CONDA_TERT_VERSION
              | [] => false
            else false
        | [] => false
      else false
  | [] => false

/-- An argument of a conda command vector: the source's
`_install_packages` calls `list.append` on a list, producing a nested
list element, so a command is a list of either plain strings or appended
sub-lists. -/
inductive CArg where
  | str (v : String)
  | sub (vs : List String)
deriving DecidableEq, Repr

/-- Instance state of a `Conda` object (status vars, request fields, the
`update_only` flag computed by `_prep_conda_path`, and oracle
bookkeeping). -/
structure St where
  failed : Bool
  changed : Bool
  changed_count : Nat
  unchanged_count : Nat
  message : String
  conda_path : String
  environment : Option String
  state : String
  channels : Option String
  packages : List String
  update_conda : Bool
  update_only : Bool
  clock : Nat
  trace : List (List CArg)
deriving Repr, DecidableEq

/-- Oracle for `module.run_command` in the conda engine. -/
def Oracle := Nat → List CArg → CmdOut

/-- `self.module.run_command(cmd)` for the conda engine. -/
def run_command (env : Oracle) (cmd : List CArg) : PyM St CmdOut :=
  fun s => .ok (env s.clock cmd)
    { s with clock := s.clock + 1, trace := s.trace ++ [cmd] }

/-- `self.failed = True; self.message = msg; raise CondaException(msg)`. -/
def fail (msg : String) : PyM St α :=
  fun s => .exn { s with failed := true, message := msg }

/-- The case-insensitive idempotency scan shared by `_update_conda` and
`_install_packages`: some nonempty stdout line matches
`re.search(r'All requested packages already installed', line.strip(),
re.IGNORECASE)`. -/
def alreadyInstalledScan (out : String) : Bool :=
  ((pySplitChar '\n' out).filter (fun l => !l.isEmpty)).any
    (fun l => strContains (pyLower (pyStrip l)) "all requested packages already installed")

/-- `Conda._add_channels_to_command`: insert repeated `--channel <name>`
pairs after the first two tokens. -/
def _add_channels_to_command (s : St) (command : List CArg) : List CArg :=
  if pyTruthy s.channels then
    let channels := pySplitWs (pyStrOpt s.channels)
    let all_channels := channels.flatMap (fun c => [CArg.str "--channel", CArg.str c])
    command.take 2 ++ all_channels ++ command.drop 2
  else
    command

/-- `Conda._add_environment_to_command`: insert `--name <env>` after the
first two tokens. -/
def _add_environment_to_command (s : St) (command : List CArg) : List CArg :=
  if pyTruthy s.environment then
    command.take 2 ++ [CArg.str "--name", CArg.str (pyStrOpt s.environment)]
      ++ command.drop 2
  else
    command

/-- `Conda._environment_exists`: validate the name, run the listing
command, and scan stdout for a line equal to the target name. -/
def _environment_exists (env : Oracle) : PyM St Bool := do
  let s ← PyM.get
  if !(s.environment.isSome && valid_environment (pyStrOpt s.environment)) then
    fail ("Invalid environment name: " ++ pyStrOpt s.environment)
  else do
    let r ← run_command env
      [CArg.str s.conda_path, CArg.str "env list | awk '\x7bprint $1\x7d'"]
    if r.rc == 0 then
      pure ((pySplitChar '\n' r.out).any (fun line => pyStrOpt s.environment == line))
    else
      fail (pyStrip r.err)

/-- `Conda._update_conda`: run the self-update and classify the outcome
by the idempotency scan. -/
def _update_conda (env : Oracle) : PyM St Unit := do
  let s ← PyM.get
  let cmd := _add_environment_to_command s
    [CArg.str s.conda_path, CArg.str "update -y -n root conda"]
  let r ← run_command env cmd
  if r.rc == 0 then do
    if !r.out.isEmpty then do
      let s ← PyM.get
      if !(alreadyInstalledScan r.out) then
        PyM.set { s with changed := true,
                         message := "Conda updated successfully.",
                         changed_count := s.changed_count + 1 }
      else
        PyM.set { s with message := "Conda already up-to-date.",
                         unchanged_count := s.unchanged_count + 1 }
    pure ()
  else
    fail (pyStrip r.err)

/-- `Conda._install_packages`: build the bulk command (with the source's
`list.append` of a sub-list in the environment branches), run it, and
classify the outcome by the idempotency scan. -/
def _install_packages (env : Oracle) : PyM St Bool := do
  let s ← PyM.get
  let cmd0 : List CArg := [CArg.str s.conda_path]
  let branch : PyM St (List CArg × Bool) :=
    if pyTruthy s.environment then do
      let ex ← _environment_exists env
      if ex then
        PyM.pure (cmd0 ++ [CArg.sub ["install", "-y", "-n ", pyStrOpt s.environment]],
          false)
      else
        PyM.pure (cmd0 ++ [CArg.sub ["create", "-y", "-n", pyStrOpt s.environment]],
          true)
    else
      PyM.pure (cmd0, false)
  let (cmd1, new_env) ← branch
  let cmd2 := cmd1 ++ s.packages.map CArg.str
  let cmd3 := _add_channels_to_command s cmd2
  let r ← run_command env cmd3
  if r.rc == 0 then do
    if !r.out.isEmpty then do
      let s ← PyM.get
      if !(alreadyInstalledScan r.out) then
        if new_env then
          PyM.set { s with changed := true,
                           message := "Conda environment created successfully.",
                           changed_count := s.changed_count + 1 }
        else
          PyM.set { s with changed := true,
                           message := "Conda environment updated successfully",
                           changed_count := s.changed_count + 1 }
      else
        PyM.set { s with message := "Conda environment already set up",
                         unchanged_count := s.unchanged_count + 1 }
    pure true
  else
    fail (pyStrip r.err)

/-- `Conda._uninstall_packages`: environment-scoped removal. -/
def _uninstall_packages (env : Oracle) : PyM St Unit := do
  let s ← PyM.get
  if pyTruthy s.environment then do
    let ex ← _environment_exists env
    if ex then do
      let r ← run_command env
        [CArg.str s.conda_path, CArg.str "remove", CArg.str "-y",
         CArg.str "-n", CArg.str (pyStrOpt s.environment)]
      if r.rc == 0 then do
        let s ← PyM.get
        PyM.set { s with changed := true,
                         message := "Conda packages successfully removed from environment",
                         changed_count := s.changed_count + 1 }
      else
        fail (pyStrip r.err)
    else do
      let s ← PyM.get
      PyM.set { s with message := "Environment not found",
                       unchanged_count := s.unchanged_count + 1 }
  else
    fail "No environment passed to remove packages from"

/-- `Conda._remove_environment`. -/
def _remove_environment (env : Oracle) : PyM St Unit := do
  let s ← PyM.get
  if pyTruthy s.environment then do
    let ex ← _environment_exists env
    if ex then do
      let r ← run_command env
        [CArg.str s.conda_path, CArg.str "remove", CArg.str "-y",
         CArg.str "-n", CArg.str (pyStrOpt s.environment)]
      if r.rc == 0 then do
        let s ← PyM.get
        PyM.set { s with changed := true,
                         message := "Conda environment successfully removed",
                         changed_count := s.changed_count + 1 }
      else
        fail (pyStrip r.err)
    else do
      let s ← PyM.get
      PyM.set { s with message := "Environment for removal not found",
                       unchanged_count := s.unchanged_count + 1 }
  else
    fail "No environment passed for removal"

/-- `Conda._run` (src/conda.py lines 502-518): the update-only gate, the
optional self-update, then the dispatch on `self.state`.  Note the
source runs the package dispatch unconditionally after `_update_conda`. -/
def _run (env : Oracle) : PyM St Unit := do
  let s ← PyM.get
  if s.update_only && !s.update_conda then
    fail "Unsupported conda version. Please update first."
  else do
  let s ← PyM.get
  if s.update_conda then
    _update_conda env
  let s ← PyM.get
  if !s.packages.isEmpty then
    if s.state == "present" then do
      let _ ← _install_packages env
      pure ()
    else if s.state == "absent" then
      _uninstall_packages env
    else if s.state == "remove_env" then
      _remove_environment env
    else
      pure ()
  else
    pure ()

/-- The state after `try: self._run() except CondaException: pass`. -/
def runCaught (env : Oracle) (s0 : St) : St := PyM.outState (_run env s0)

/-- The state after the batch-summary message overwrite at the tail of
`Conda.run`. -/
def finalState (env : Oracle) (s0 : St) : St :=
  let s := runCaught env s0
  if !s.failed && s.changed_count + s.unchanged_count > 1 then
    { s with message := "Changed: " ++ toString s.changed_count
        ++ ", Unchanged: " ++ toString s.unchanged_count }
  else s

/-- `Conda.run`. -/
def run (env : Oracle) (s0 : St) : Bool × Bool × String :=
  let s := finalState env s0
  (s.failed, s.changed, s.message)

/-- The state built by `__init__` (status vars plus request fields;
`conda_path` and `update_only` are what `_prep_conda_path` would have
left behind). -/
def initSt (conda_path : String) (environment : Option String)
    (state : String) (channels : Option String) (packages : List String)
    (update_conda update_only : Bool) : St :=
  { failed := false, changed := false, changed_count := 0,
    unchanged_count := 0, message := "", conda_path := conda_path,
    environment := environment, state := state, channels := channels,
    packages := packages, update_conda := update_conda,
    update_only := update_only, clock := 0, trace := [] }

end Conda

namespace Linuxbrew

/-- The command construction of `Linuxbrew._current_version_is_installed`
(src/linuxbrew.py line 524) calls `str.format` on the malformed format
string `"\x7bbrew_path"` — an unterminated replacement field — which
raises `ValueError` in Python before the info command can be issued. -/
def version_cmd_format : Except PyErr (List String) :=
  Except.error PyErr.valueError

/-- `Linuxbrew._current_version_is_installed` (src/linuxbrew.py lines
517-541): validate the package, then build the info command.  The
command construction always raises (see `version_cmd_format`), so the
line-scanning tail of the function — which additionally looks for the
misspelled marker `'Build from source'` and reads the nonexistent
attribute `self.current_version` — is unreachable; the trailing `pure`
stands for that unreachable remainder. -/
def _current_version_is_installed (pkg : Option String) : Except PyErr Bool :=
  if !(valid_package pkg) then
    .error PyErr.moduleException
  else
    match version_cmd_format with
    | .error e => .error e
    | .ok _cmd => .ok false

end Linuxbrew

/-! ## Theorems -/

theorem pym_bind_def {σ α β : Type} (m : PyM σ α) (f : α → PyM σ β) :
    m >>= f = PyM.bind m f := rfl

theorem pym_pure_def {σ α : Type} (a : α) : (pure a : PyM σ α) = PyM.pure a := rfl

/-- Claim C1 (code_bug): the conda version gate of `_prep_conda_path`
never flags any version string update-only.  Its comparisons are Python 2
mixed-type `str`-vs-`int` comparisons, which are never "less than" nor
"equal" for a string against an integer, so `update_only` stays `False`
for every parsed version (or an `IndexError` occurs on a one-component
version); in particular `"3.9.9"` is NOT flagged, although the
documented minimum is 4.0.11 and the spec's reading
(`update_only_spec`) flags it. -/
theorem conda_version_gate_never_flags :
    (∀ v : String,
        Conda.update_only_of_version v = Except.ok false ∨
        Conda.update_only_of_version v = Except.error PyErr.indexError) ∧
    Conda.update_only_of_version "4.0.11" = Except.ok false ∧
    Conda.update_only_of_version "3.9.9" = Except.ok false ∧
    Conda.update_only_of_version "4.0" = Except.ok false ∧
    Conda.update_only_spec "4.0.11" = false ∧
    Conda.update_only_spec "3.9.9" = true ∧
    Conda.update_only_spec "4.0" = false := by
  refine ⟨?_, rfl, rfl, rfl, rfl, rfl, rfl⟩
  intro v
  cases h : (pySplitChar '.' v)[1]? with
  | none =>
      right
      simp [Conda.update_only_of_version, Conda.pyGet, h]
  | some x =>
      left
      simp [Conda.update_only_of_version, Conda.pyGet, h,
        Conda.py2_str_lt_int, Conda.py2_str_eq_int]

/-- Claim C8 (code_bug): `_current_version_is_installed` never answers
the version-match question: for every package it either rejects the
package name or raises `ValueError` from the malformed format string
`"\x7bbrew_path"` before the info command is issued; in particular for
the valid package `"foo"` it raises `ValueError`. -/
theorem current_version_check_always_raises :
    (∀ pkg : Option String,
        Linuxbrew._current_version_is_installed pkg
            = Except.error PyErr.moduleException ∨
        Linuxbrew._current_version_is_installed pkg
            = Except.error PyErr.valueError) ∧
    Linuxbrew._current_version_is_installed (some "foo")
        = Except.error PyErr.valueError := by
  refine ⟨?_, rfl⟩
  intro pkg
  cases h : Linuxbrew.valid_package pkg with
  | false =>
      left
      simp [Linuxbrew._current_version_is_installed, h]
  | true =>
      right
      simp [Linuxbrew._current_version_is_installed, h,
        Linuxbrew.version_cmd_format]

namespace Linuxbrew

theorem installed_query_spec (env : Oracle) (s : St) (p : String)
    (hcp : s.current_package = some p) (hv : valid_package (some p) = true) :
    _current_package_is_installed env s =
      .ok (installedAnswer (env s.clock (infoCmd s.brew_path p)))
        { s with clock := s.clock + 1,
                 trace := s.trace ++ [infoCmd s.brew_path p] } := by
  simp [_current_package_is_installed, pym_bind_def, pym_pure_def, PyM.bind,
    PyM.pure, PyM.get, run_command, hcp, hv, pyStrOpt]

theorem install_step_already (env : Oracle) (s : St) (p : String)
    (hcp : s.current_package = some p) (hv : valid_package (some p) = true)
    (ha : installedAnswer (env s.clock (infoCmd s.brew_path p)) = true) :
    _install_current_package env s =
      .ok true { s with unchanged_count := s.unchanged_count + 1,
                        message := "Package already installed: " ++ p,
                        clock := s.clock + 1,
                        trace := s.trace ++ [infoCmd s.brew_path p] } := by
  simp [_install_current_package, pym_bind_def, pym_pure_def, PyM.bind, PyM.pure,
    PyM.get, PyM.set, installed_query_spec env s p hcp hv, ha, hcp, hv, pyStrOpt]

theorem install_step_checkmode (env : Oracle) (s : St) (p : String)
    (hcp : s.current_package = some p) (hv : valid_package (some p) = true)
    (ha : installedAnswer (env s.clock (infoCmd s.brew_path p)) = false)
    (hcm : s.check_mode = true) :
    _install_current_package env s =
      .exn { s with changed := true,
                    message := "Package would be installed: " ++ p,
                    clock := s.clock + 1,
                    trace := s.trace ++ [infoCmd s.brew_path p] } := by
  simp [_install_current_package, pym_bind_def, pym_pure_def, PyM.bind, PyM.pure,
    PyM.get, PyM.set, PyM.raise, installed_query_spec env s p hcp hv, ha, hcp, hv,
    hcm, pyStrOpt]

theorem install_step_real (env : Oracle) (s : St) (p : String)
    (hcp : s.current_package = some p) (hv : valid_package (some p) = true)
    (ha : installedAnswer (env s.clock (infoCmd s.brew_path p)) = false)
    (hcm : s.check_mode = false) :
    _install_current_package env s =
      if installedAnswer (env (s.clock + 1 + 1)
          (infoCmd s.brew_path p)) then
        .ok true { s with changed_count := s.changed_count + 1, changed := true,
                          message := "Package installed: " ++ p,
                          clock := s.clock + 1 + 1 + 1,
                          trace := s.trace ++ [infoCmd s.brew_path p,
                            installCmd s.brew_path s.install_options (some p) s.state,
                            infoCmd s.brew_path p] }
      else
        .exn { s with failed := true,
                      message := pyStrip (env (s.clock + 1)
                        (installCmd s.brew_path s.install_options (some p) s.state)).err,
                      clock := s.clock + 1 + 1 + 1,
                      trace := s.trace ++ [infoCmd s.brew_path p,
                        installCmd s.brew_path s.install_options (some p) s.state,
                        infoCmd s.brew_path p] } := by
  simp only [_install_current_package, pym_bind_def, pym_pure_def, PyM.bind, PyM.pure,
    PyM.get, PyM.set, PyM.raise, run_command, installed_query_spec env s p hcp hv, ha,
    hcp, hv, hcm, pyStrOpt, Bool.not_true, Bool.not_false, if_true, if_false,
    Bool.false_eq_true, ite_false, ite_true]
  have hq2 := installed_query_spec env
    ({ s with current_package := some p, check_mode := false,
              clock := s.clock + 1 + 1,
              trace := s.trace ++ [infoCmd s.brew_path p]
                ++ [installCmd s.brew_path s.install_options (some p) s.state] })
    p rfl hv
  simp only [] at hq2
  simp only [hq2]
  by_cases hb : installedAnswer (env (s.clock + 1 + 1) (infoCmd s.brew_path p)) = true
  · simp [hb, pym_bind_def, pym_pure_def, PyM.bind, PyM.pure, PyM.get, PyM.set,
      pyStrOpt, List.append_assoc]
  · simp only [Bool.not_eq_true] at hb
    simp [hb, pym_bind_def, pym_pure_def, PyM.bind, PyM.pure, PyM.get, PyM.set,
      fail, pyStrOpt, List.append_assoc]

theorem uninstall_step_absent (env : Oracle) (s : St) (p : String)
    (hcp : s.current_package = some p) (hv : valid_package (some p) = true)
    (ha : installedAnswer (env s.clock (infoCmd s.brew_path p)) = false) :
    _uninstall_current_package env s =
      .ok true { s with unchanged_count := s.unchanged_count + 1,
                        message := "Package already uninstalled: " ++ p,
                        clock := s.clock + 1,
                        trace := s.trace ++ [infoCmd s.brew_path p] } := by
  simp [_uninstall_current_package, pym_bind_def, pym_pure_def, PyM.bind, PyM.pure,
    PyM.get, PyM.set, installed_query_spec env s p hcp hv, ha, hcp, hv, pyStrOpt]

theorem uninstall_step_checkmode (env : Oracle) (s : St) (p : String)
    (hcp : s.current_package = some p) (hv : valid_package (some p) = true)
    (ha : installedAnswer (env s.clock (infoCmd s.brew_path p)) = true)
    (hcm : s.check_mode = true) :
    _uninstall_current_package env s =
      .exn { s with changed := true,
                    message := "Package would be uninstalled: " ++ p,
                    clock := s.clock + 1,
                    trace := s.trace ++ [infoCmd s.brew_path p] } := by
  simp [_uninstall_current_package, pym_bind_def, pym_pure_def, PyM.bind, PyM.pure,
    PyM.get, PyM.set, PyM.raise, installed_query_spec env s p hcp hv, ha, hcp, hv,
    hcm, pyStrOpt]

theorem uninstall_step_real (env : Oracle) (s : St) (p : String)
    (hcp : s.current_package = some p) (hv : valid_package (some p) = true)
    (ha : installedAnswer (env s.clock (infoCmd s.brew_path p)) = true)
    (hcm : s.check_mode = false) :
    _uninstall_current_package env s =
      if installedAnswer (env (s.clock + 1 + 1) (infoCmd s.brew_path p)) then
        .exn { s with failed := true,
                      message := pyStrip (env (s.clock + 1)
                        (uninstallCmd s.brew_path s.install_options (some p))).err,
                      clock := s.clock + 1 + 1 + 1,
                      trace := s.trace ++ [infoCmd s.brew_path p,
                        uninstallCmd s.brew_path s.install_options (some p),
                        infoCmd s.brew_path p] }
      else
        .ok true { s with changed_count := s.changed_count + 1, changed := true,
                          message := "Package uninstalled: " ++ p,
                          clock := s.clock + 1 + 1 + 1,
                          trace := s.trace ++ [infoCmd s.brew_path p,
                            uninstallCmd s.brew_path s.install_options (some p),
                            infoCmd s.brew_path p] } := by
  simp only [_uninstall_current_package, pym_bind_def, pym_pure_def, PyM.bind, PyM.pure,
    PyM.get, PyM.set, PyM.raise, run_command, installed_query_spec env s p hcp hv, ha,
    hcp, hv, hcm, pyStrOpt, Bool.not_true, Bool.not_false, if_true, if_false,
    Bool.false_eq_true, ite_false, ite_true]
  have hq2 := installed_query_spec env
    ({ s with current_package := some p, check_mode := false,
              clock := s.clock + 1 + 1,
              trace := s.trace ++ [infoCmd s.brew_path p]
                ++ [uninstallCmd s.brew_path s.install_options (some p)] })
    p rfl hv
  simp only [hq2]
  by_cases hb : installedAnswer (env (s.clock + 1 + 1) (infoCmd s.brew_path p)) = true
  · simp [hb, pym_bind_def, pym_pure_def, PyM.bind, PyM.pure, PyM.get, PyM.set,
      fail, pyStrOpt, List.append_assoc]
  · simp only [Bool.not_eq_true] at hb
    simp [hb, pym_bind_def, pym_pure_def, PyM.bind, PyM.pure, PyM.get, PyM.set,
      pyStrOpt, List.append_assoc]

theorem set_package_spec (s : St) (p : String)
    (hv : valid_package (some p) = true) :
    setCurrentPackage p s = .ok () { s with current_package := some p } := by
  simp [setCurrentPackage, pym_bind_def, pym_pure_def, PyM.bind, PyM.pure,
    PyM.get, PyM.set, hv]

theorem pym_bind_assoc {σ α β γ : Type} (m : PyM σ α) (f : α → PyM σ β)
    (g : β → PyM σ γ) :
    PyM.bind (PyM.bind m f) g = PyM.bind m (fun a => PyM.bind (f a) g) := by
  funext s
  simp only [PyM.bind]
  cases m s <;> rfl

theorem uninstallLoop_append (env : Oracle) (l1 l2 : List String) :
    uninstallLoop env (l1 ++ l2) =
      PyM.bind (uninstallLoop env l1) (fun _ => uninstallLoop env l2) := by
  induction l1 with
  | nil => rfl
  | cons p rest ih =>
      simp only [List.cons_append, uninstallLoop, pym_bind_def, List.append_eq, ih,
        pym_bind_assoc]

theorem installLoop_all_installed (env : Oracle) :
    ∀ (pre : List String) (s : St),
      (∀ q ∈ pre, valid_package (some q) = true) →
      (∀ i (hi : i < pre.length),
          installedAnswer (env (s.clock + i)
            (infoCmd s.brew_path (pre.get ⟨i, hi⟩))) = true) →
      ∃ cp msg,
        installLoop env pre s =
          .ok () { s with current_package := cp, message := msg,
                          unchanged_count := s.unchanged_count + pre.length,
                          clock := s.clock + pre.length,
                          trace := s.trace
                            ++ pre.map (fun q => infoCmd s.brew_path q) } := by
  intro pre
  induction pre with
  | nil =>
      intro s _ _
      exact ⟨s.current_package, s.message, by simp [installLoop, PyM.pure]⟩
  | cons p rest ih =>
      intro s hvalid hinst
      have hvp : valid_package (some p) = true := hvalid p (by simp)
      have ha0 : installedAnswer (env s.clock (infoCmd s.brew_path p)) = true := by
        have := hinst 0 (by simp)
        simpa using this
      have hset := set_package_spec s p hvp
      have hstep := install_step_already env { s with current_package := some p }
        p rfl hvp (by simpa using ha0)
      obtain ⟨cp, msg, hrest⟩ := ih
        { s with current_package := some p,
                 unchanged_count := s.unchanged_count + 1,
                 message := "Package already installed: " ++ p,
                 clock := s.clock + 1,
                 trace := s.trace ++ [infoCmd s.brew_path p] }
        (fun q hq => hvalid q (by simp [hq]))
        (by
          intro i hi
          have := hinst (i + 1) (by simpa using Nat.succ_lt_succ hi)
          simpa [Nat.add_assoc, Nat.add_comm 1 i] using this)
      refine ⟨cp, msg, ?_⟩
      simp only [installLoop, pym_bind_def, PyM.bind, hset, hstep, hrest]
      simp [St.mk.injEq, List.append_assoc]
      omega

end Linuxbrew

/-- Claim C5: requesting `installed` for a single valid package that the
state discoverer reports as already installed performs no mutating
external call (the trace of the whole run is exactly one `info` query),
and the run ends with `changed = false`, `failed = false` and
`unchanged_count = 1`. -/
theorem install_already_installed_idempotent (env : Linuxbrew.Oracle)
    (bp p : String) (opts : List String) (check : Bool)
    (hv : Linuxbrew.valid_package (some p) = true)
    (ha : Linuxbrew.installedAnswer (env 0 (Linuxbrew.infoCmd bp p)) = true) :
    Linuxbrew.run env (Linuxbrew.initSt bp [p] "installed" false false opts check) =
        (false, false, "Package already installed: " ++ p) ∧
    Linuxbrew.finalState env
        (Linuxbrew.initSt bp [p] "installed" false false opts check) =
      { Linuxbrew.initSt bp [p] "installed" false false opts check with
          current_package := some p,
          unchanged_count := 1,
          message := "Package already installed: " ++ p,
          clock := 1,
          trace := [Linuxbrew.infoCmd bp p] } ∧
    (Linuxbrew.finalState env
        (Linuxbrew.initSt bp [p] "installed" false false opts check)).trace.filter
        Linuxbrew.isMutatingCmd = [] := by
  have hfs : Linuxbrew.finalState env
      (Linuxbrew.initSt bp [p] "installed" false false opts check) =
      { Linuxbrew.initSt bp [p] "installed" false false opts check with
          current_package := some p,
          unchanged_count := 1,
          message := "Package already installed: " ++ p,
          clock := 1,
          trace := [Linuxbrew.infoCmd bp p] } := by
    simp [Linuxbrew.finalState, Linuxbrew.runCaught, Linuxbrew._run,
      Linuxbrew._install_packages, Linuxbrew.installLoop,
      Linuxbrew._install_current_package, Linuxbrew._current_package_is_installed,
      Linuxbrew.setCurrentPackage, Linuxbrew.run_command, Linuxbrew.initSt,
      pym_bind_def, pym_pure_def, PyM.bind, PyM.pure, PyM.get, PyM.set,
      PyM.outState, hv, ha, pyStrOpt]
  refine ⟨?_, hfs, ?_⟩
  · simp only [Linuxbrew.run, hfs]
    simp [Linuxbrew.initSt]
  · simp only [hfs]
    simp [Linuxbrew.initSt, Linuxbrew.isMutatingCmd, Linuxbrew.infoCmd]

namespace Linuxbrew

theorem installLoop_append (env : Oracle) (l1 l2 : List String) :
    installLoop env (l1 ++ l2) =
      PyM.bind (installLoop env l1) (fun _ => installLoop env l2) := by
  induction l1 with
  | nil => rfl
  | cons p rest ih =>
      simp only [List.cons_append, installLoop, pym_bind_def, List.append_eq, ih,
        pym_bind_assoc]

theorem info_not_mutating (bp q : String) :
    isMutatingCmd (infoCmd bp q) = false := by
  simp [infoCmd, isMutatingCmd]

theorem info_trace_not_mutating (bp : String) (l : List String) :
    (l.map (fun q => infoCmd bp q)).filter isMutatingCmd = [] := by
  induction l with
  | nil => rfl
  | cons q rest ih => simp [info_not_mutating, ih]

end Linuxbrew

/-- Claim C4 (amended): in a dry-run (check-mode) batch with state
`installed` that does not also request a linuxbrew self-update or an
upgrade-all, when the dispatcher reaches the first package whose
installed-state is not yet satisfied, the run reports `changed = true`
(and `failed = false`), issues no mutating external command during the
whole run (the trace is exactly one read-only `info` query per processed
package), and aborts before processing any subsequent package of the
batch. -/
theorem dry_run_install_short_circuit (env : Linuxbrew.Oracle) (bp p : String)
    (opts : List String) (pre post : List String)
    (hvpre : ∀ q ∈ pre, Linuxbrew.valid_package (some q) = true)
    (hvp : Linuxbrew.valid_package (some p) = true)
    (hpre : ∀ i (hi : i < pre.length),
        Linuxbrew.installedAnswer (env i
          (Linuxbrew.infoCmd bp (pre.get ⟨i, hi⟩))) = true)
    (hp : Linuxbrew.installedAnswer (env pre.length
        (Linuxbrew.infoCmd bp p)) = false) :
    (Linuxbrew.run env (Linuxbrew.initSt bp (pre ++ p :: post) "installed"
        false false opts true)).1 = false ∧
    (Linuxbrew.run env (Linuxbrew.initSt bp (pre ++ p :: post) "installed"
        false false opts true)).2.1 = true ∧
    (Linuxbrew.finalState env (Linuxbrew.initSt bp (pre ++ p :: post) "installed"
        false false opts true)).trace
      = (pre ++ [p]).map (fun q => Linuxbrew.infoCmd bp q) ∧
    (Linuxbrew.finalState env (Linuxbrew.initSt bp (pre ++ p :: post) "installed"
        false false opts true)).trace.filter Linuxbrew.isMutatingCmd = [] := by
  obtain ⟨cp, msg, h1⟩ := Linuxbrew.installLoop_all_installed env pre
    (Linuxbrew.initSt bp (pre ++ p :: post) "installed" false false opts true)
    hvpre
    (by
      intro i hi
      simpa [Linuxbrew.initSt] using hpre i hi)
  simp only [Linuxbrew.initSt] at h1
  simp at h1
  have hfs : Linuxbrew.finalState env
      (Linuxbrew.initSt bp (pre ++ p :: post) "installed" false false opts true) =
      (let s2 : Linuxbrew.St :=
        { failed := false, changed := true, changed_count := 0,
          unchanged_count := pre.length,
          message := "Package would be installed: " ++ p,
          brew_path := bp, packages := pre ++ p :: post,
          current_package := some p, state := "installed",
          update_linuxbrew := false, upgrade_all := false,
          install_options := opts, check_mode := true,
          clock := pre.length + 1,
          trace := pre.map (fun q => Linuxbrew.infoCmd bp q)
            ++ [Linuxbrew.infoCmd bp p] }
       if !s2.failed && s2.changed_count + s2.unchanged_count > 1 then
         { s2 with message := "Changed: " ++ toString s2.changed_count
             ++ ", Unchanged: " ++ toString s2.unchanged_count }
       else s2) := by
    simp [Linuxbrew.finalState, Linuxbrew.runCaught, Linuxbrew._run,
      Linuxbrew._install_packages, Linuxbrew.initSt, Linuxbrew.installLoop_append,
      Linuxbrew.installLoop, Linuxbrew.setCurrentPackage,
      Linuxbrew._install_current_package, Linuxbrew._current_package_is_installed,
      Linuxbrew.run_command, pym_bind_def, pym_pure_def, PyM.bind, PyM.pure,
      PyM.get, PyM.set, PyM.raise, PyM.outState, h1, hvp, hp, pyStrOpt]
  refine ⟨?_, ?_, ?_, ?_⟩
  · simp only [Linuxbrew.run, hfs]
    by_cases hn : pre.length > 1 <;> simp [hn]
  · simp only [Linuxbrew.run, hfs]
    by_cases hn : pre.length > 1 <;> simp [hn]
  · simp only [hfs]
    by_cases hn : pre.length > 1 <;> simp [hn, List.map_append]
  · simp only [hfs]
    by_cases hn : pre.length > 1 <;>
      simp [hn, List.filter_append, Linuxbrew.info_trace_not_mutating,
        Linuxbrew.info_not_mutating]

/-- Claim C4 (counterexample): a dry-run batch CAN issue a mutating
external command.  With check mode set, `upgrade_all` also requested and
the single package `foo` missing, the dispatcher reaches `foo`'s
unsatisfied `installed` state, reports `changed = true` and aborts — yet
the run has already issued the mutating `brew upgrade` command, because
`_upgrade_all` has no check-mode guard. -/
theorem dry_run_counterexample_upgrade_all :
    Linuxbrew.run
        (fun _ cmd => if cmd = ["brew", "upgrade"]
          then CmdOut.mk 0 "upgraded some packages" "" else CmdOut.mk 0 "" "")
        (Linuxbrew.initSt "brew" ["foo"] "installed" false true [] true) =
      (false, true, "Package would be installed: foo") ∧
    (Linuxbrew.finalState
        (fun _ cmd => if cmd = ["brew", "upgrade"]
          then CmdOut.mk 0 "upgraded some packages" "" else CmdOut.mk 0 "" "")
        (Linuxbrew.initSt "brew" ["foo"] "installed" false true [] true)).trace =
      [["brew", "upgrade"], ["brew", "info", "foo"]] ∧
    (Linuxbrew.finalState
        (fun _ cmd => if cmd = ["brew", "upgrade"]
          then CmdOut.mk 0 "upgraded some packages" "" else CmdOut.mk 0 "" "")
        (Linuxbrew.initSt "brew" ["foo"] "installed" false true [] true)).trace.filter
        Linuxbrew.isMutatingCmd = [["brew", "upgrade"]] := by
  refine ⟨?_, ?_, ?_⟩ <;> decide

/-- Witness for the amended dry-run claim at a concrete batch: packages
`["a", "b", "c"]`, `a` installed, `b` missing, check mode set. -/
theorem dry_run_install_short_circuit_witness :
    (Linuxbrew.run
        (fun n _ => if n = 0 then CmdOut.mk 0 "Built from source" ""
          else CmdOut.mk 0 "" "")
        (Linuxbrew.initSt "brew" (["a"] ++ "b" :: ["c"]) "installed"
            false false [] true)).1 = false ∧
    (Linuxbrew.run
        (fun n _ => if n = 0 then CmdOut.mk 0 "Built from source" ""
          else CmdOut.mk 0 "" "")
        (Linuxbrew.initSt "brew" (["a"] ++ "b" :: ["c"]) "installed"
            false false [] true)).2.1 = true ∧
    (Linuxbrew.finalState
        (fun n _ => if n = 0 then CmdOut.mk 0 "Built from source" ""
          else CmdOut.mk 0 "" "")
        (Linuxbrew.initSt "brew" (["a"] ++ "b" :: ["c"]) "installed"
            false false [] true)).trace
      = (["a"] ++ ["b"]).map (fun q => Linuxbrew.infoCmd "brew" q) ∧
    (Linuxbrew.finalState
        (fun n _ => if n = 0 then CmdOut.mk 0 "Built from source" ""
          else CmdOut.mk 0 "" "")
        (Linuxbrew.initSt "brew" (["a"] ++ "b" :: ["c"]) "installed"
            false false [] true)).trace.filter Linuxbrew.isMutatingCmd = [] := by
  exact dry_run_install_short_circuit
    (fun n _ => if n = 0 then CmdOut.mk 0 "Built from source" ""
      else CmdOut.mk 0 "" "")
    "brew" "b" [] ["a"] ["c"]
    (by decide)
    (by decide)
    (by
      intro i hi
      have h0 : i = 0 := by simpa using hi
      subst h0
      show Linuxbrew.installedAnswer
        ((fun n _ => if n = 0 then CmdOut.mk 0 "Built from source" ""
          else CmdOut.mk 0 "" "") 0 (Linuxbrew.infoCmd "brew" "a")) = true
      decide)
    (by decide)

/-- Witness for the idempotence claim: package `foo` already installed
(`brew info` reports `Poured from bottle`). -/
theorem install_already_installed_idempotent_witness :
    Linuxbrew.valid_package (some "foo") = true ∧
    Linuxbrew.installedAnswer
      ((fun _ _ => CmdOut.mk 0 "Poured from bottle" "")
        0 (Linuxbrew.infoCmd "brew" "foo")) = true ∧
    Linuxbrew.run (fun _ _ => CmdOut.mk 0 "Poured from bottle" "")
        (Linuxbrew.initSt "brew" ["foo"] "installed" false false [] false) =
      (false, false, "Package already installed: " ++ "foo") := by
  refine ⟨by decide, by decide, ?_⟩
  exact (install_already_installed_idempotent
    (fun _ _ => CmdOut.mk 0 "Poured from bottle" "") "brew" "foo" [] false
    (by decide) (by decide)).1

/-- Claim C6: at run end, whenever no fatal error occurred and the two
work counters sum to more than one, both engines unconditionally
overwrite the result message with the two-number summary
`"Changed: <changedCount>, Unchanged: <unchangedCount>"`, discarding any
earlier per-item message. -/
theorem run_batch_summary_message :
    (∀ (env : Linuxbrew.Oracle) (s0 : Linuxbrew.St),
        (Linuxbrew.runCaught env s0).failed = false →
        (Linuxbrew.runCaught env s0).changed_count
            + (Linuxbrew.runCaught env s0).unchanged_count > 1 →
        Linuxbrew.run env s0 =
          (false, (Linuxbrew.runCaught env s0).changed,
           "Changed: " ++ toString (Linuxbrew.runCaught env s0).changed_count
             ++ ", Unchanged: "
             ++ toString (Linuxbrew.runCaught env s0).unchanged_count)) ∧
    (∀ (env : Conda.Oracle) (s0 : Conda.St),
        (Conda.runCaught env s0).failed = false →
        (Conda.runCaught env s0).changed_count
            + (Conda.runCaught env s0).unchanged_count > 1 →
        Conda.run env s0 =
          (false, (Conda.runCaught env s0).changed,
           "Changed: " ++ toString (Conda.runCaught env s0).changed_count
             ++ ", Unchanged: "
             ++ toString (Conda.runCaught env s0).unchanged_count)) := by
  constructor
  · intro env s0 h1 h2
    simp [Linuxbrew.run, Linuxbrew.finalState, h1, h2]
  · intro env s0 h1 h2
    simp [Conda.run, Conda.finalState, h1, h2]

/-- Witness for the batch-summary claim: a linuxbrew batch of three
packages, two already installed and one newly installed, ends with the
message `"Changed: 1, Unchanged: 2"`. -/
theorem run_batch_summary_message_witness :
    (Linuxbrew.runCaught
        (fun n _ => if n = 2 || n = 3 then CmdOut.mk 0 "" ""
          else CmdOut.mk 0 "Poured from bottle" "")
        (Linuxbrew.initSt "brew" ["a", "b", "c"] "installed"
          false false [] false)).failed = false ∧
    (Linuxbrew.runCaught
        (fun n _ => if n = 2 || n = 3 then CmdOut.mk 0 "" ""
          else CmdOut.mk 0 "Poured from bottle" "")
        (Linuxbrew.initSt "brew" ["a", "b", "c"] "installed"
          false false [] false)).changed_count
      + (Linuxbrew.runCaught
        (fun n _ => if n = 2 || n = 3 then CmdOut.mk 0 "" ""
          else CmdOut.mk 0 "Poured from bottle" "")
        (Linuxbrew.initSt "brew" ["a", "b", "c"] "installed"
          false false [] false)).unchanged_count > 1 ∧
    Linuxbrew.run
        (fun n _ => if n = 2 || n = 3 then CmdOut.mk 0 "" ""
          else CmdOut.mk 0 "Poured from bottle" "")
        (Linuxbrew.initSt "brew" ["a", "b", "c"] "installed"
          false false [] false) =
      (false, true, "Changed: 1, Unchanged: 2") := by
  have m1 : Linuxbrew.installedAnswer (CmdOut.mk 0 "Poured from bottle" "") = true := by
    decide
  have m2 : Linuxbrew.installedAnswer (CmdOut.mk 0 "" "") = false := by decide
  have va : Linuxbrew.valid_package (some "a") = true := by decide
  have vb : Linuxbrew.valid_package (some "b") = true := by decide
  have vc : Linuxbrew.valid_package (some "c") = true := by decide
  have hfs : Linuxbrew.runCaught
      (fun n _ => if n = 2 || n = 3 then CmdOut.mk 0 "" ""
        else CmdOut.mk 0 "Poured from bottle" "")
      (Linuxbrew.initSt "brew" ["a", "b", "c"] "installed" false false [] false) =
      { failed := false, changed := true, changed_count := 1, unchanged_count := 2,
        message := "Package installed: " ++ "c", brew_path := "brew",
        packages := ["a", "b", "c"], current_package := some "c",
        state := "installed", update_linuxbrew := false, upgrade_all := false,
        install_options := [], check_mode := false, clock := 5,
        trace := [["brew", "info", "a"], ["brew", "info", "b"],
          ["brew", "info", "c"], ["brew", "install", "c"],
          ["brew", "info", "c"]] } := by
    simp [Linuxbrew.runCaught, Linuxbrew._run, Linuxbrew._install_packages,
      Linuxbrew.installLoop, Linuxbrew.setCurrentPackage,
      Linuxbrew._install_current_package, Linuxbrew._current_package_is_installed,
      Linuxbrew.run_command, Linuxbrew.initSt, Linuxbrew.installCmd,
      Linuxbrew.infoCmd, pym_bind_def, pym_pure_def, PyM.bind, PyM.pure, PyM.get,
      PyM.set, PyM.raise, PyM.outState, pyStrOpt, m1, m2, va, vb, vc] <;> decide
  refine ⟨by rw [hfs], by rw [hfs]; decide, ?_⟩
  have h := run_batch_summary_message.1
    (fun n _ => if n = 2 || n = 3 then CmdOut.mk 0 "" ""
      else CmdOut.mk 0 "Poured from bottle" "")
    (Linuxbrew.initSt "brew" ["a", "b", "c"] "installed" false false [] false)
    (by rw [hfs]) (by rw [hfs]; decide)
  rw [hfs] at h
  exact h.trans (by rfl)

/-- Claim C7: after the mutating install (resp. uninstall) command, the
step is recorded as changed iff the re-queried installed-answer is
`true` (resp. `false`) — the expected flip — for every oracle and hence
independently of the mutating command's exit code; when the re-query
does not confirm the transition the step raises with `failed = true`. -/
theorem mutation_recorded_iff_discoverer_flips :
    (∀ (env : Linuxbrew.Oracle) (s : Linuxbrew.St) (p : String),
        s.current_package = some p →
        Linuxbrew.valid_package (some p) = true →
        s.check_mode = false →
        Linuxbrew.installedAnswer (env s.clock
          (Linuxbrew.infoCmd s.brew_path p)) = false →
        (PyM.outState (Linuxbrew._install_current_package env s)).changed_count
            = s.changed_count
              + (if Linuxbrew.installedAnswer (env (s.clock + 1 + 1)
                  (Linuxbrew.infoCmd s.brew_path p)) then 1 else 0) ∧
        (PyM.outState (Linuxbrew._install_current_package env s)).failed
            = (s.failed || !Linuxbrew.installedAnswer (env (s.clock + 1 + 1)
                (Linuxbrew.infoCmd s.brew_path p))) ∧
        PyM.isExn (Linuxbrew._install_current_package env s)
            = !Linuxbrew.installedAnswer (env (s.clock + 1 + 1)
                (Linuxbrew.infoCmd s.brew_path p))) ∧
    (∀ (env : Linuxbrew.Oracle) (s : Linuxbrew.St) (p : String),
        s.current_package = some p →
        Linuxbrew.valid_package (some p) = true →
        s.check_mode = false →
        Linuxbrew.installedAnswer (env s.clock
          (Linuxbrew.infoCmd s.brew_path p)) = true →
        (PyM.outState (Linuxbrew._uninstall_current_package env s)).changed_count
            = s.changed_count
              + (if Linuxbrew.installedAnswer (env (s.clock + 1 + 1)
                  (Linuxbrew.infoCmd s.brew_path p)) then 0 else 1) ∧
        (PyM.outState (Linuxbrew._uninstall_current_package env s)).failed
            = (s.failed || Linuxbrew.installedAnswer (env (s.clock + 1 + 1)
                (Linuxbrew.infoCmd s.brew_path p))) ∧
        PyM.isExn (Linuxbrew._uninstall_current_package env s)
            = Linuxbrew.installedAnswer (env (s.clock + 1 + 1)
                (Linuxbrew.infoCmd s.brew_path p))) := by
  constructor
  · intro env s p hcp hv hcm ha
    rw [Linuxbrew.install_step_real env s p hcp hv ha hcm]
    by_cases hb : Linuxbrew.installedAnswer (env (s.clock + 1 + 1)
        (Linuxbrew.infoCmd s.brew_path p)) = true
    · simp [hb, PyM.outState, PyM.isExn]
    · simp only [Bool.not_eq_true] at hb
      simp [hb, PyM.outState, PyM.isExn]
  · intro env s p hcp hv hcm ha
    rw [Linuxbrew.uninstall_step_real env s p hcp hv ha hcm]
    by_cases hb : Linuxbrew.installedAnswer (env (s.clock + 1 + 1)
        (Linuxbrew.infoCmd s.brew_path p)) = true
    · simp [hb, PyM.outState, PyM.isExn]
    · simp only [Bool.not_eq_true] at hb
      simp [hb, PyM.outState, PyM.isExn]

/-- Witness for the flip-confirmation claim: an install whose mutating
command exits nonzero is still recorded changed because the re-query
reports installed, and an uninstall whose re-query reports not installed
is recorded changed and non-fatal. -/
theorem mutation_recorded_iff_discoverer_flips_witness :
    (PyM.outState (Linuxbrew._install_current_package
        (fun n _ => if n = 2 then CmdOut.mk 0 "Built from source" ""
          else CmdOut.mk 1 "" "err")
        { Linuxbrew.initSt "brew" [] "installed" false false [] false with
            current_package := some "foo" })).changed_count = 1 ∧
    (PyM.outState (Linuxbrew._install_current_package
        (fun n _ => if n = 2 then CmdOut.mk 0 "Built from source" ""
          else CmdOut.mk 1 "" "err")
        { Linuxbrew.initSt "brew" [] "installed" false false [] false with
            current_package := some "foo" })).failed = false ∧
    (PyM.outState (Linuxbrew._uninstall_current_package
        (fun n _ => if n = 0 then CmdOut.mk 0 "Poured from bottle" ""
          else CmdOut.mk 1 "" "err")
        { Linuxbrew.initSt "brew" [] "installed" false false [] false with
            current_package := some "foo" })).changed_count = 1 ∧
    PyM.isExn (Linuxbrew._uninstall_current_package
        (fun n _ => if n = 0 then CmdOut.mk 0 "Poured from bottle" ""
          else CmdOut.mk 1 "" "err")
        { Linuxbrew.initSt "brew" [] "installed" false false [] false with
            current_package := some "foo" }) = false := by
  obtain ⟨h1, h2, _⟩ := mutation_recorded_iff_discoverer_flips.1
    (fun n _ => if n = 2 then CmdOut.mk 0 "Built from source" ""
      else CmdOut.mk 1 "" "err")
    { Linuxbrew.initSt "brew" [] "installed" false false [] false with
        current_package := some "foo" }
    "foo" rfl (by decide) rfl (by decide)
  obtain ⟨h3, _, h4⟩ := mutation_recorded_iff_discoverer_flips.2
    (fun n _ => if n = 0 then CmdOut.mk 0 "Poured from bottle" ""
      else CmdOut.mk 1 "" "err")
    { Linuxbrew.initSt "brew" [] "installed" false false [] false with
        current_package := some "foo" }
    "foo" rfl (by decide) rfl (by decide)
  exact ⟨h1.trans (by decide), h2.trans (by decide),
    h3.trans (by decide), h4.trans (by decide)⟩

/-- Claim C9: when a package mid-batch triggers the fatal
external-command-failed condition (its uninstall is not confirmed by the
re-query), the run ends with `failed = true`, the aggregator counters
keep exactly the values accumulated up to the failing package (no update
from any later package), and the trace shows that no command was issued
for the remainder of the batch. -/
theorem fatal_uninstall_aborts_batch (env : Linuxbrew.Oracle) (bp p : String)
    (opts : List String) (pre post : List String) (s1 : Linuxbrew.St)
    (hloop : Linuxbrew.uninstallLoop env pre
        (Linuxbrew.initSt bp (pre ++ p :: post) "absent" false false opts false)
      = PyResult.ok () s1)
    (hbp : s1.brew_path = bp)
    (hio : s1.install_options = opts) (hcm : s1.check_mode = false)
    (hvp : Linuxbrew.valid_package (some p) = true)
    (hpre1 : Linuxbrew.installedAnswer (env s1.clock
        (Linuxbrew.infoCmd bp p)) = true)
    (hpost1 : Linuxbrew.installedAnswer (env (s1.clock + 1 + 1)
        (Linuxbrew.infoCmd bp p)) = true) :
    (Linuxbrew.run env (Linuxbrew.initSt bp (pre ++ p :: post) "absent"
        false false opts false)).1 = true ∧
    (Linuxbrew.finalState env (Linuxbrew.initSt bp (pre ++ p :: post) "absent"
        false false opts false)).changed_count = s1.changed_count ∧
    (Linuxbrew.finalState env (Linuxbrew.initSt bp (pre ++ p :: post) "absent"
        false false opts false)).unchanged_count = s1.unchanged_count ∧
    (Linuxbrew.finalState env (Linuxbrew.initSt bp (pre ++ p :: post) "absent"
        false false opts false)).trace
      = s1.trace ++ [Linuxbrew.infoCmd bp p,
          Linuxbrew.uninstallCmd bp opts (some p), Linuxbrew.infoCmd bp p] ∧
    (Linuxbrew.finalState env (Linuxbrew.initSt bp (pre ++ p :: post) "absent"
        false false opts false)).message
      = pyStrip (env (s1.clock + 1)
          (Linuxbrew.uninstallCmd bp opts (some p))).err := by
  have hstep := Linuxbrew.uninstall_step_real env
    { s1 with current_package := some p } p rfl hvp
    (by simpa [hbp] using hpre1) (by simpa using hcm)
  rw [if_pos (by simpa [hbp] using hpost1)] at hstep
  simp only [hbp, hio] at hstep
  have hfs : Linuxbrew.finalState env
      (Linuxbrew.initSt bp (pre ++ p :: post) "absent" false false opts false) =
      { s1 with
          current_package := some p,
          failed := true,
          message := pyStrip (env (s1.clock + 1)
            (Linuxbrew.uninstallCmd bp opts (some p))).err,
          clock := s1.clock + 1 + 1 + 1,
          trace := s1.trace ++ [Linuxbrew.infoCmd bp p,
            Linuxbrew.uninstallCmd bp opts (some p),
            Linuxbrew.infoCmd bp p] } := by
    simp only [Linuxbrew.initSt] at hloop
    simp [Linuxbrew.finalState, Linuxbrew.runCaught, Linuxbrew._run,
      Linuxbrew._uninstall_packages, Linuxbrew.initSt,
      Linuxbrew.uninstallLoop_append, Linuxbrew.uninstallLoop, pym_bind_def,
      pym_pure_def, PyM.bind, PyM.pure, PyM.get, PyM.outState, hloop, hbp, hio,
      Linuxbrew.set_package_spec _ _ hvp, hstep]
  refine ⟨?_, ?_, ?_, ?_, ?_⟩
  · simp [Linuxbrew.run, hfs]
  · simp [hfs]
  · simp [hfs]
  · simp [hfs]
  · simp [hfs]

/-- Witness for the fatal-abort claim: a batch `["a", "b", "c"]` with
state `absent` where `a` is already absent, `b`'s uninstall command
fails to remove it (the re-query still reports installed), and `c` is
never reached: the run is failed, the counters stay at the values from
`a`, and the stripped diagnostic stream of the failing command is the
message. -/
theorem fatal_uninstall_aborts_batch_witness :
    Linuxbrew.uninstallLoop
        (fun n _ => if n = 0 then CmdOut.mk 0 "" ""
          else if n = 2 then CmdOut.mk 1 "" " boom "
          else CmdOut.mk 0 "Poured from bottle" "")
        ["a"]
        (Linuxbrew.initSt "brew" (["a"] ++ "b" :: ["c"]) "absent"
          false false [] false)
      = PyResult.ok ()
        { Linuxbrew.initSt "brew" (["a"] ++ "b" :: ["c"]) "absent"
            false false [] false with
            current_package := some "a",
            unchanged_count := 1,
            message := "Package already uninstalled: " ++ "a",
            clock := 1,
            trace := [["brew", "info", "a"]] } ∧
    (Linuxbrew.run
        (fun n _ => if n = 0 then CmdOut.mk 0 "" ""
          else if n = 2 then CmdOut.mk 1 "" " boom "
          else CmdOut.mk 0 "Poured from bottle" "")
        (Linuxbrew.initSt "brew" (["a"] ++ "b" :: ["c"]) "absent"
          false false [] false)).1 = true ∧
    (Linuxbrew.finalState
        (fun n _ => if n = 0 then CmdOut.mk 0 "" ""
          else if n = 2 then CmdOut.mk 1 "" " boom "
          else CmdOut.mk 0 "Poured from bottle" "")
        (Linuxbrew.initSt "brew" (["a"] ++ "b" :: ["c"]) "absent"
          false false [] false)).changed_count = 0 ∧
    (Linuxbrew.finalState
        (fun n _ => if n = 0 then CmdOut.mk 0 "" ""
          else if n = 2 then CmdOut.mk 1 "" " boom "
          else CmdOut.mk 0 "Poured from bottle" "")
        (Linuxbrew.initSt "brew" (["a"] ++ "b" :: ["c"]) "absent"
          false false [] false)).unchanged_count = 1 ∧
    (Linuxbrew.finalState
        (fun n _ => if n = 0 then CmdOut.mk 0 "" ""
          else if n = 2 then CmdOut.mk 1 "" " boom "
          else CmdOut.mk 0 "Poured from bottle" "")
        (Linuxbrew.initSt "brew" (["a"] ++ "b" :: ["c"]) "absent"
          false false [] false)).message = "boom" := by
  have hloop : Linuxbrew.uninstallLoop
      (fun n _ => if n = 0 then CmdOut.mk 0 "" ""
        else if n = 2 then CmdOut.mk 1 "" " boom "
        else CmdOut.mk 0 "Poured from bottle" "")
      ["a"]
      (Linuxbrew.initSt "brew" (["a"] ++ "b" :: ["c"]) "absent"
        false false [] false)
    = PyResult.ok ()
      { Linuxbrew.initSt "brew" (["a"] ++ "b" :: ["c"]) "absent"
          false false [] false with
          current_package := some "a",
          unchanged_count := 1,
          message := "Package already uninstalled: " ++ "a",
          clock := 1,
          trace := [["brew", "info", "a"]] } := by decide
  have h := fatal_uninstall_aborts_batch
    (fun n _ => if n = 0 then CmdOut.mk 0 "" ""
      else if n = 2 then CmdOut.mk 1 "" " boom "
      else CmdOut.mk 0 "Poured from bottle" "")
    "brew" "b" [] ["a"] ["c"]
    { Linuxbrew.initSt "brew" (["a"] ++ "b" :: ["c"]) "absent"
        false false [] false with
        current_package := some "a",
        unchanged_count := 1,
        message := "Package already uninstalled: " ++ "a",
        clock := 1,
        trace := [["brew", "info", "a"]] }
    hloop rfl rfl rfl (by decide) (by decide) (by decide)
  exact ⟨hloop, h.1, h.2.1.trans (by decide), h.2.2.1.trans (by decide),
    h.2.2.2.2.trans (by decide)⟩

namespace Linuxbrew

theorem pym_bind_apply_ok {α β : Type} (m : PyM St α) (f : α → PyM St β)
    (s s' : St) (a : α) (h : m s = .ok a s') :
    PyM.bind m f s = f a s' := by
  simp [PyM.bind, h]

theorem pym_bind_apply_exn {α β : Type} (m : PyM St α) (f : α → PyM St β)
    (s s' : St) (h : m s = .exn s') :
    PyM.bind m f s = .exn s' := by
  simp [PyM.bind, h]

theorem run_dispatch_installed (env : Oracle) (s : St)
    (h1 : s.update_linuxbrew = false) (h2 : s.upgrade_all = false)
    (h3 : s.state = "installed") (h4 : s.packages.isEmpty = false) :
    _run env s = PyM.bind (installLoop env s.packages) (fun _ => PyM.pure ()) s := by
  simp only [_run, _install_packages, pym_bind_def, pym_pure_def, PyM.bind,
    PyM.pure, PyM.get, h1, h2, h3, h4, Bool.false_eq_true, if_false,
    Bool.not_false, if_true, String.reduceBEq, ite_true, ite_false]
  cases hres : installLoop env s.packages s <;> simp [hres]

end Linuxbrew

/-- Claim C10: `run()` is total at its interface — for every oracle and
state it returns a `(failed, changed, message)` triple, even when the
internal early-exit exception was raised — and in the check-mode
short-circuit for a missing package the internal exception is raised yet
the run returns `failed = false` with `changed = true`: a dry-run abort
is reported to the front-end as a success. -/
theorem run_total_and_dry_run_reports_success :
    (∀ (env : Linuxbrew.Oracle) (s0 : Linuxbrew.St),
        ∃ f c m, Linuxbrew.run env s0 = (f, c, m)) ∧
    (∀ (env : Linuxbrew.Oracle) (bp p : String) (opts : List String),
        Linuxbrew.valid_package (some p) = true →
        Linuxbrew.installedAnswer (env 0 (Linuxbrew.infoCmd bp p)) = false →
        PyM.isExn (Linuxbrew._run env
          (Linuxbrew.initSt bp [p] "installed" false false opts true)) = true ∧
        Linuxbrew.run env
            (Linuxbrew.initSt bp [p] "installed" false false opts true) =
          (false, true, "Package would be installed: " ++ p)) := by
  constructor
  · intro env s0
    exact ⟨_, _, _, rfl⟩
  · intro env bp p opts hv ha
    have hset : Linuxbrew.setCurrentPackage p
        (Linuxbrew.initSt bp [p] "installed" false false opts true) =
        PyResult.ok ()
          { Linuxbrew.initSt bp [p] "installed" false false opts true with
              current_package := some p } :=
      Linuxbrew.set_package_spec _ p hv
    have hstep := Linuxbrew.install_step_checkmode env
      { Linuxbrew.initSt bp [p] "installed" false false opts true with
          current_package := some p } p rfl hv
      (by simpa [Linuxbrew.initSt] using ha) rfl
    have hloopfact : Linuxbrew.installLoop env [p]
        (Linuxbrew.initSt bp [p] "installed" false false opts true) =
        PyResult.exn
          { Linuxbrew.initSt bp [p] "installed" false false opts true with
              current_package := some p,
              changed := true,
              message := "Package would be installed: " ++ p,
              clock := 1,
              trace := [Linuxbrew.infoCmd bp p] } := by
      show PyM.bind (Linuxbrew.setCurrentPackage p)
        (fun _ => PyM.bind (Linuxbrew._install_current_package env)
          (fun _ => Linuxbrew.installLoop env []))
        (Linuxbrew.initSt bp [p] "installed" false false opts true) = _
      rw [Linuxbrew.pym_bind_apply_ok _ _ _ _ _ hset]
      show PyM.bind (Linuxbrew._install_current_package env)
        (fun _ => Linuxbrew.installLoop env [])
        { Linuxbrew.initSt bp [p] "installed" false false opts true with
            current_package := some p } = _
      rw [Linuxbrew.pym_bind_apply_exn _ _ _ _ hstep]
      rfl
    have hrun : Linuxbrew._run env
        (Linuxbrew.initSt bp [p] "installed" false false opts true) =
        PyResult.exn
          { Linuxbrew.initSt bp [p] "installed" false false opts true with
              current_package := some p,
              changed := true,
              message := "Package would be installed: " ++ p,
              clock := 1,
              trace := [Linuxbrew.infoCmd bp p] } := by
      rw [Linuxbrew.run_dispatch_installed env
        (Linuxbrew.initSt bp [p] "installed" false false opts true)
        rfl rfl rfl rfl]
      show PyM.bind (Linuxbrew.installLoop env [p]) (fun _ => PyM.pure ())
        (Linuxbrew.initSt bp [p] "installed" false false opts true) = _
      rw [Linuxbrew.pym_bind_apply_exn _ _ _ _ hloopfact]
    constructor
    · rw [hrun]
      rfl
    · simp only [Linuxbrew.run, Linuxbrew.finalState, Linuxbrew.runCaught, hrun]
      simp [Linuxbrew.initSt, PyM.outState]

/-- Witness for the run-totality claim: the dry-run short-circuit for a
missing package `foo` raises internally and still returns a success
triple. -/
theorem run_total_and_dry_run_reports_success_witness :
    Linuxbrew.valid_package (some "foo") = true ∧
    Linuxbrew.installedAnswer
      ((fun _ _ => CmdOut.mk 0 "" "") 0 (Linuxbrew.infoCmd "brew" "foo")) = false ∧
    PyM.isExn (Linuxbrew._run (fun _ _ => CmdOut.mk 0 "" "")
      (Linuxbrew.initSt "brew" ["foo"] "installed" false false [] true)) = true ∧
    Linuxbrew.run (fun _ _ => CmdOut.mk 0 "" "")
        (Linuxbrew.initSt "brew" ["foo"] "installed" false false [] true) =
      (false, true, "Package would be installed: " ++ "foo") := by
  have h := run_total_and_dry_run_reports_success.2
    (fun _ _ => CmdOut.mk 0 "" "") "brew" "foo" [] (by decide) (by decide)
  exact ⟨by decide, by decide, h.1, h.2⟩

theorem pym_bind_ok_apply {σ α β : Type} (m : PyM σ α) (f : α → PyM σ β)
    (s s' : σ) (a : α) (h : m s = .ok a s') :
    PyM.bind m f s = f a s' := by
  simp [PyM.bind, h]

theorem pym_bind_exn_apply {σ α β : Type} (m : PyM σ α) (f : α → PyM σ β)
    (s s' : σ) (h : m s = .exn s') :
    PyM.bind m f s = .exn s' := by
  simp [PyM.bind, h]

theorem pym_outState_bind_pure {σ α : Type} (m : PyM σ α) (s : σ) :
    PyM.outState (PyM.bind m (fun _ => PyM.pure ()) s) = PyM.outState (m s) := by
  cases h : m s <;> simp [PyM.bind, PyM.pure, PyM.outState, h]

namespace Conda

theorem update_conda_spec (env : Oracle) (s : St)
    (henv : s.environment = none)
    (hrc : (env s.clock
      [CArg.str s.conda_path, CArg.str "update -y -n root conda"]).rc = 0) :
    PyM.isExn (_update_conda env s) = false ∧
    (PyM.outState (_update_conda env s)).conda_path = s.conda_path ∧
    (PyM.outState (_update_conda env s)).environment = s.environment ∧
    (PyM.outState (_update_conda env s)).channels = s.channels ∧
    (PyM.outState (_update_conda env s)).packages = s.packages ∧
    (PyM.outState (_update_conda env s)).state = s.state ∧
    (PyM.outState (_update_conda env s)).clock = s.clock + 1 ∧
    (PyM.outState (_update_conda env s)).trace = s.trace
      ++ [[CArg.str s.conda_path, CArg.str "update -y -n root conda"]] := by
  simp only [_update_conda, _add_environment_to_command, henv, pyTruthy,
    Bool.false_eq_true, if_false, pym_bind_def, pym_pure_def, PyM.bind, PyM.pure,
    PyM.get, PyM.set, run_command, ite_false]
  by_cases hout : (env s.clock
      [CArg.str s.conda_path, CArg.str "update -y -n root conda"]).out.isEmpty
  · simp [hrc, hout, henv, PyM.outState, PyM.isExn, pym_bind_def, pym_pure_def,
      PyM.bind, PyM.pure, PyM.get, PyM.set]
  · by_cases hscan : alreadyInstalledScan (env s.clock
        [CArg.str s.conda_path, CArg.str "update -y -n root conda"]).out
    · simp [hrc, hout, hscan, henv, PyM.outState, PyM.isExn, pym_bind_def,
        pym_pure_def, PyM.bind, PyM.pure, PyM.get, PyM.set]
    · simp [hrc, hout, hscan, henv, PyM.outState, PyM.isExn, pym_bind_def,
        pym_pure_def, PyM.bind, PyM.pure, PyM.get, PyM.set]

theorem install_packages_trace (env : Oracle) (s : St)
    (henv : s.environment = none) (hch : s.channels = none) :
    (PyM.outState (_install_packages env s)).trace =
      s.trace ++ [CArg.str s.conda_path :: s.packages.map CArg.str] := by
  simp only [_install_packages, _add_channels_to_command, henv, hch, pyTruthy,
    Bool.false_eq_true, if_false, pym_bind_def, pym_pure_def, PyM.bind, PyM.pure,
    PyM.get, PyM.set, run_command, fail, ite_false]
  by_cases hrc : (env s.clock
      (CArg.str s.conda_path :: s.packages.map CArg.str)).rc == 0
  · by_cases hout : (env s.clock
        (CArg.str s.conda_path :: s.packages.map CArg.str)).out.isEmpty
    · simp [hrc, hout, PyM.outState, pym_bind_def, pym_pure_def, PyM.bind,
        PyM.pure, PyM.get, PyM.set]
    · by_cases hscan : alreadyInstalledScan (env s.clock
          (CArg.str s.conda_path :: s.packages.map CArg.str)).out
      · simp [hrc, hout, hscan, PyM.outState, pym_bind_def, pym_pure_def,
          PyM.bind, PyM.pure, PyM.get, PyM.set]
      · simp [hrc, hout, hscan, PyM.outState, pym_bind_def, pym_pure_def,
          PyM.bind, PyM.pure, PyM.get, PyM.set]
  · simp [hrc, PyM.outState, fail, pym_bind_def, pym_pure_def, PyM.bind,
      PyM.pure, PyM.get, PyM.set]

theorem conda_run_unfold (env : Oracle) (s : St)
    (h1 : s.update_only = true) (h2 : s.update_conda = true) :
    _run env s =
      PyM.bind (_update_conda env)
        (fun _ => PyM.bind PyM.get (fun s2 =>
          if !s2.packages.isEmpty then
            if s2.state == "present" then
              PyM.bind (_install_packages env) (fun _ => PyM.pure ())
            else if s2.state == "absent" then _uninstall_packages env
            else if s2.state == "remove_env" then _remove_environment env
            else PyM.pure ()
          else PyM.pure ())) s := by
  simp only [_run, pym_bind_def, pym_pure_def, PyM.bind, PyM.pure, PyM.get,
    h1, h2, Bool.not_true, Bool.and_false, Bool.false_eq_true, if_false,
    if_true, ite_true, ite_false]

end Conda

/-- Claim C2 (amended): when the version gate has flagged update-only, a
run that does not also request a self-update fails fatally before any
external operation (no command is issued and the run returns
`failed = true`); when the run does request a self-update, the
self-update runs first and the package-state dispatch then proceeds as
usual — it is NOT skipped: with packages requested and state `present`,
the bulk install command is issued right after the self-update command. -/
theorem conda_update_only_gate_behavior :
    (∀ (env : Conda.Oracle) (s : Conda.St),
        s.update_only = true → s.update_conda = false →
        Conda._run env s = PyResult.exn
          { s with failed := true,
                   message := "Unsupported conda version. Please update first." } ∧
        Conda.run env s =
          (true, s.changed, "Unsupported conda version. Please update first.") ∧
        (Conda.finalState env s).trace = s.trace) ∧
    (∀ (env : Conda.Oracle) (s : Conda.St),
        s.update_only = true → s.update_conda = true →
        s.environment = none → s.channels = none →
        s.state = "present" → s.packages.isEmpty = false →
        (env s.clock [Conda.CArg.str s.conda_path,
          Conda.CArg.str "update -y -n root conda"]).rc = 0 →
        (Conda.runCaught env s).trace =
          s.trace ++ [[Conda.CArg.str s.conda_path,
              Conda.CArg.str "update -y -n root conda"],
            Conda.CArg.str s.conda_path
              :: s.packages.map Conda.CArg.str]) := by
  constructor
  · intro env s h1 h2
    have hr : Conda._run env s = PyResult.exn
        { s with failed := true,
                 message := "Unsupported conda version. Please update first." } := by
      simp [Conda._run, pym_bind_def, PyM.bind, PyM.get, Conda.fail, h1, h2]
    refine ⟨hr, ?_, ?_⟩
    · simp [Conda.run, Conda.finalState, Conda.runCaught, hr, PyM.outState]
    · simp [Conda.finalState, Conda.runCaught, hr, PyM.outState]
  · intro env s h1 h2 henv hch hst hpk hrc
    obtain ⟨hex, hcp, henv2, hch2, hpk2, hst2, _, htr2⟩ :=
      Conda.update_conda_spec env s henv hrc
    show (PyM.outState (Conda._run env s)).trace = _
    rw [Conda.conda_run_unfold env s h1 h2]
    cases hu : Conda._update_conda env s with
    | exn s1 =>
        rw [hu] at hex
        simp [PyM.isExn] at hex
    | ok a s1 =>
        have hs1 : PyM.outState (Conda._update_conda env s) = s1 := by
          rw [hu]
          rfl
        rw [hs1] at hcp henv2 hch2 hpk2 hst2 htr2
        rw [pym_bind_ok_apply _ _ _ _ _ hu]
        simp only [pym_bind_def, PyM.bind, PyM.get, hpk2, hst2, hpk, hst,
          Bool.not_false, if_true, String.reduceBEq, ite_true, ite_false]
        have htr3 := Conda.install_packages_trace env s1
          (by rw [henv2]; exact henv) (by rw [hch2]; exact hch)
        cases hi : Conda._install_packages env s1 with
        | ok b s2 =>
            rw [hi] at htr3
            simp only [PyM.outState] at htr3
            simp [PyM.pure, PyM.outState, hi, htr3, hcp, hpk2, htr2,
              List.append_assoc]
        | exn s2 =>
            rw [hi] at htr3
            simp only [PyM.outState] at htr3
            simp [PyM.outState, hi, htr3, hcp, hpk2, htr2, List.append_assoc]

/-- Claim C2 (counterexample): with the tool flagged update-only and a
self-update requested, the package-state operations are NOT skipped:
for packages `["numpy"]` with state `present`, the run issues the bulk
install command right after the self-update command, increments the
changed counter twice (once for the self-update, once for the package
operation), and ends with the batch summary `"Changed: 2, Unchanged: 0"`. -/
theorem conda_self_update_does_not_skip_package_ops :
    (Conda.finalState (fun _ _ => CmdOut.mk 0 "ok" "")
        (Conda.initSt "conda" none "present" none ["numpy"] true true)).trace =
      [[Conda.CArg.str "conda", Conda.CArg.str "update -y -n root conda"],
       [Conda.CArg.str "conda", Conda.CArg.str "numpy"]] ∧
    (Conda.finalState (fun _ _ => CmdOut.mk 0 "ok" "")
        (Conda.initSt "conda" none "present" none ["numpy"] true true)).changed_count
      = 2 ∧
    Conda.run (fun _ _ => CmdOut.mk 0 "ok" "")
        (Conda.initSt "conda" none "present" none ["numpy"] true true) =
      (false, true, "Changed: 2, Unchanged: 0") := by
  refine ⟨?_, ?_, ?_⟩ <;> decide

/-- Witness for the update-only gate claim: without a self-update the
run fails fatally with no command issued; with a self-update requested
the trace shows the self-update command followed by the package
install command. -/
theorem conda_update_only_gate_behavior_witness :
    Conda.run (fun _ _ => CmdOut.mk 0 "ok" "")
        (Conda.initSt "conda" none "present" none ["numpy"] false true) =
      (true, false, "Unsupported conda version. Please update first.") ∧
    (Conda.finalState (fun _ _ => CmdOut.mk 0 "ok" "")
        (Conda.initSt "conda" none "present" none ["numpy"] false true)).trace
      = [] ∧
    (Conda.runCaught (fun _ _ => CmdOut.mk 0 "ok" "")
        (Conda.initSt "conda" none "present" none ["numpy"] true true)).trace =
      [] ++ [[Conda.CArg.str "conda", Conda.CArg.str "update -y -n root conda"],
        Conda.CArg.str "conda" :: (["numpy"].map Conda.CArg.str)] := by
  have ha := (conda_update_only_gate_behavior.1 (fun _ _ => CmdOut.mk 0 "ok" "")
    (Conda.initSt "conda" none "present" none ["numpy"] false true) rfl rfl)
  have hb := conda_update_only_gate_behavior.2 (fun _ _ => CmdOut.mk 0 "ok" "")
    (Conda.initSt "conda" none "present" none ["numpy"] true true)
    rfl rfl rfl rfl rfl rfl rfl
  exact ⟨ha.2.1, ha.2.2, hb⟩
